import Mathlib

/-!
Vive Libre tracking core: a verification development.

A shallow embedding of `src/src/vl_driver.cpp` (timestamp validity, sample
sequencing, unit conversion, the per-sample tracking step, and device
acquisition over an explicit model of the HID layer), followed by theorems
about that embedding.

Conventions:
* `uint32_t` / `uint8_t` values are natural numbers; wrap-around arithmetic is
  written out with `% 2^32` / `% 256`.
* `int` values are integers.
* `Eigen::Vector3d` is a triple of rationals (exact arithmetic).
* The fusion engine (`vl_fusion_update`) and the tick-to-seconds constant
  `FREQ_48MHZ` are declared outside the embedded sources, so the engine is a
  parameter that receives the wrapped tick delta.
-/

namespace ViveLibre

/-! ## Machine arithmetic -/

/-- The constant `UINT32_MAX`. -/
def UINT32_MAX : Nat := 2 ^ 32 - 1

/-- Subtraction of two `uint32_t` values, wrapping modulo `2^32`. -/
def sub_u32 (a b : Nat) : Nat := (a + 2 ^ 32 - b) % 2 ^ 32

/-- The cast `(uint8_t)x` of a non-negative `int`. -/
def cast_u8 (x : Nat) : Nat := x % 256

/-! ## Timestamp validity and sample sequencing (`vl_driver.cpp` 276-287) -/

/-- Embedding of `is_timestamp_valid`:
`t1 != t2 && ((t1 < t2 && t2 - t1 > UINT32_MAX >> 2) || (t1 > t2 && t1 - t2 < UINT32_MAX >> 2))`. -/
def is_timestamp_valid (t1 t2 : Nat) : Bool :=
  t1 != t2 &&
    ((decide (t1 < t2) && decide (sub_u32 t2 t1 > UINT32_MAX >>> 2)) ||
     (decide (t1 > t2) && decide (sub_u32 t1 t2 < UINT32_MAX >>> 2)))

/-- Embedding of `get_lowest_index`:
`(s0 == (uint8_t)(s1 + 2)) ? 1 : (s1 == (uint8_t)(s2 + 2)) ? 2 : 0`. -/
def get_lowest_index (s0 s1 s2 : Nat) : Nat :=
  if s0 = cast_u8 (s1 + 2) then 1
  else if s1 = cast_u8 (s2 + 2) then 2
  else 0

/-- The validity predicate in the words of the specification, with the
threshold `T` left as a parameter: false if `t1 = t2`; otherwise true only if
(`t1 < t2` and `t2 - t1 > T`) or (`t1 > t2` and `t1 - t2 < T`). -/
def isValid_spec (T t1 t2 : Nat) : Bool :=
  decide (t1 ≠ t2 ∧ ((t1 < t2 ∧ t2 - t1 > T) ∨ (t1 > t2 ∧ t1 - t2 < T)))

/-! ## Unit conversion (`vl_driver.cpp` 195-210) -/

/-- An `Eigen::Vector3d`, over exact rationals. -/
structure Vec3 where
  x : ℚ
  y : ℚ
  z : ℚ
deriving DecidableEq

/-- Vector times scalar (`Eigen` operator `*`). -/
def Vec3.mul (v : Vec3) (k : ℚ) : Vec3 := ⟨v.x * k, v.y * k, v.z * k⟩

/-- Vector divided by scalar (`Eigen` operator `/`). -/
def Vec3.div (v : Vec3) (k : ℚ) : Vec3 := ⟨v.x / k, v.y / k, v.z / k⟩

/-- An `int16_t[3]` array of raw counts. -/
structure Raw3 where
  e0 : Int
  e1 : Int
  e2 : Int
deriving DecidableEq

/-- The constant `#define VL_GRAVITY_EARTH 9.81`. -/
def VL_GRAVITY_EARTH : ℚ := 981 / 100

/-- Embedding of `vec3_from_accel`. The return expression
`sample * VL_ACCEL_FACTOR` expands textually to
`sample * 9.81 * 4.0/32768.0`, which C parses left to right. -/
def vec3_from_accel (smp : Raw3) : Vec3 :=
  let sample : Vec3 := ⟨smp.e0, smp.e1, smp.e2⟩
  ((sample.mul VL_GRAVITY_EARTH).mul 4).div 32768

/-- Embedding of `vec3_from_gyro`. The return expression
`sample * VL_POW_2_M12` expands textually to `sample * 8.0/32768.0`. -/
def vec3_from_gyro (smp : Raw3) : Vec3 :=
  let sample : Vec3 := ⟨smp.e0, smp.e1, smp.e2⟩
  (sample.mul 8).div 32768

/-! ## Tracking loop (`vl_driver.cpp` 289-335) -/

/-- One inertial sample of an IMU report (`vl_imu_sample`). -/
structure vl_imu_sample where
  acc : Raw3
  rot : Raw3
  time_ticks : Nat
  seq : Nat
deriving DecidableEq

/-- A decoded IMU report (`vl_msg_hmd_imu`): three samples. -/
structure vl_msg_hmd_imu where
  samples0 : vl_imu_sample
  samples1 : vl_imu_sample
  samples2 : vl_imu_sample
deriving DecidableEq

/-- Array access `pkt.samples[index]` for an index in `0..2`. -/
def vl_msg_hmd_imu.samples (pkt : vl_msg_hmd_imu) (index : Nat) : vl_imu_sample :=
  match index with
  | 0 => pkt.samples0
  | 1 => pkt.samples1
  | _ => pkt.samples2

/-- The driver structure (`vl_driver`): four endpoint handles (`none` is
`NULL`), the fusion state and the previous tick value. -/
structure vl_driver (F : Type) where
  hmd_device : Option Nat
  hmd_imu_device : Option Nat
  hmd_light_sensor_device : Option Nat
  watchman_dongle_device : Option Nat
  sensor_fusion : F
  previous_ticks : Nat

/-- The fusion engine `vl_fusion_update(fusion, dt, gyro, accel)`, where
`dt = FREQ_48MHZ * ticks`; the engine is given the tick delta `ticks`. -/
abbrev FusionUpdate (F : Type) := F → Nat → Vec3 → Vec3 → F

/-- Embedding of `vl_update_imu`. -/
def vl_update_imu {F : Type} (vl_fusion_update : FusionUpdate F) (fusion : F)
    (sample : vl_imu_sample) (dt : Nat) : F :=
  let vec3_gyro := vec3_from_gyro sample.rot
  let vec3_accel := vec3_from_accel sample.acc
  vl_fusion_update fusion dt vec3_gyro vec3_accel

/-- Body of the `for` loop of `vl_driver_update_pose` (lines 314-325) for the
sample `sample = pkt.samples[index]`; `continue` ends the iteration. -/
def update_pose_sample {F : Type} (vl_fusion_update : FusionUpdate F)
    (drv : vl_driver F) (sample : vl_imu_sample) : vl_driver F :=
  if drv.previous_ticks = 0 then
    { drv with previous_ticks := sample.time_ticks }
  else if is_timestamp_valid sample.time_ticks drv.previous_ticks then
    let dt := sub_u32 sample.time_ticks drv.previous_ticks
    let fusion := vl_update_imu vl_fusion_update drv.sensor_fusion sample dt
    { drv with sensor_fusion := fusion, previous_ticks := sample.time_ticks }
  else drv

/-- The handling of one IMU report in `vl_driver_update_pose` (lines 306-326):
`li = get_lowest_index(...)`, then `for (offset = 0; offset < 3; offset++)`
with `index = (li + offset) % 3`. -/
def update_pose_report {F : Type} (vl_fusion_update : FusionUpdate F)
    (drv : vl_driver F) (pkt : vl_msg_hmd_imu) : vl_driver F :=
  let li := get_lowest_index pkt.samples0.seq pkt.samples1.seq pkt.samples2.seq
  (List.range 3).foldl
    (fun d offset =>
      let index := (li + offset) % 3
      update_pose_sample vl_fusion_update d (pkt.samples index))
    drv

/-- One successful `hid_read` on the IMU endpoint: either a report whose tag is
`VL_MSG_HMD_IMU`, decoded, or a report with another tag. -/
inductive imu_read where
  | hmd_imu (pkt : vl_msg_hmd_imu)
  | other (tag : Nat)

/-- Embedding of `vl_driver_update_pose` over the reports drained by the
`while` loop. -/
def vl_driver_update_pose {F : Type} (vl_fusion_update : FusionUpdate F)
    (drv : vl_driver F) (reads : List imu_read) : vl_driver F :=
  reads.foldl
    (fun d r =>
      match r with
      | .hmd_imu pkt => update_pose_report vl_fusion_update d pkt
      | .other _ => d)
    drv

/-- The tracking step applied to a sequence of samples in order. -/
def feed_samples {F : Type} (vl_fusion_update : FusionUpdate F)
    (drv : vl_driver F) (samples : List vl_imu_sample) : vl_driver F :=
  samples.foldl (update_pose_sample vl_fusion_update) drv

/-- One recorded call of the fusion engine. -/
structure FusionCall where
  ticks : Nat
  gyro : Vec3
  accel : Vec3
deriving DecidableEq

/-- A fusion engine that records every update call it receives. -/
def record_update : FusionUpdate (List FusionCall) :=
  fun fusion dt gyro accel => fusion ++ [⟨dt, gyro, accel⟩]

/-- A driver in the initial tracking state: `previous_ticks = 0` and no
recorded fusion update. -/
def initial_driver : vl_driver (List FusionCall) :=
  { hmd_device := some 0, hmd_imu_device := some 1, hmd_light_sensor_device := some 2,
    watchman_dongle_device := some 3, sensor_fusion := [], previous_ticks := 0 }

/-- The per-sample transition in the words of the specification: if
`previous_ticks = 0` the sample only seeds `previous_ticks`; otherwise, if the
timestamp is valid, exactly one fusion update is made with the converted
vectors and the tick delta `(ticks - previous_ticks) mod 2^32`, and
`previous_ticks` advances; otherwise nothing changes. -/
def reference_transition {F : Type} (vl_fusion_update : FusionUpdate F)
    (drv : vl_driver F) (sample : vl_imu_sample) : vl_driver F :=
  match decide (drv.previous_ticks = 0),
        is_timestamp_valid sample.time_ticks drv.previous_ticks with
  | true, _ => { drv with previous_ticks := sample.time_ticks }
  | false, true =>
    { drv with
      sensor_fusion :=
        vl_fusion_update drv.sensor_fusion
          ((((sample.time_ticks : Int) - (drv.previous_ticks : Int)) % 2 ^ 32).toNat)
          (vec3_from_gyro sample.rot) (vec3_from_accel sample.acc)
      previous_ticks := sample.time_ticks }
  | false, false => drv

/-! ## HID layer and device acquisition (`vl_driver.cpp` 47-53, 75-174) -/

/-- One entry of a `hid_enumerate` result list. The C string `path` is
represented by an identifier, `path`, and its length `strlen(path)`,
`path_len`. -/
structure hid_device_info where
  vendor_id : Nat
  product_id : Nat
  path : Nat
  path_len : Nat
deriving DecidableEq

/-- The behaviour of the HID library: what `hid_enumerate` lists for a
vendor/product pair, whether `hid_open_path` succeeds on a path, and the
return value of `hid_set_nonblocking(dev, 1)`. -/
structure HidEnv where
  hid_enumerate : Nat → Nat → List hid_device_info
  can_open : Nat → Bool
  hid_set_nonblocking : Option Nat → Int

/-- The observable state of the HID layer: every path passed to
`hid_open_path` so far, and the handles that are open (a handle is named by
the path it was opened from). -/
structure HidState where
  open_attempts : List Nat
  open_handles : List Nat
deriving DecidableEq

/-- The result of running a function: it returns a value, or the execution
reaches undefined behaviour, in the HID state `st`. -/
inductive Outcome (α : Type) where
  | returns (a : α)
  | undefined (st : HidState)
deriving DecidableEq

/-- Library call `hid_open_path(path)`. -/
def hid_open_path (env : HidEnv) (st : HidState) (path : Nat) : Option Nat × HidState :=
  if env.can_open path then
    (some path, { open_attempts := st.open_attempts ++ [path],
                  open_handles := st.open_handles ++ [path] })
  else
    (none, { st with open_attempts := st.open_attempts ++ [path] })

/-- Library call `hid_close(dev)`. -/
def hid_close (st : HidState) (dev : Option Nat) : HidState :=
  match dev with
  | some h => { st with open_handles := st.open_handles.erase h }
  | none => st

/-- The number of bytes that `sprintf(buf, "%.*s\n", prec, s)` stores in `buf`
for a string `s` of length `slen`: at most `prec` characters of `s`, the
newline and the terminating NUL. -/
def sprintf_prec_newline_size (prec slen : Nat) : Nat := min prec slen + 2

/-- Embedding of `_hid_to_unix_path` (lines 75-89) on a path string of length
`path_len`; `none` is undefined behaviour. With `len = 4` the function
declares `char bus[len]` and `char dev[len]`, stores
`sprintf(bus, "%.*s\n", len, path)` and `sprintf(dev, "%.*s\n", len, path + 5)`,
and then formats the result; `path + 5` is readable only when
`5 <= strlen(path)`. -/
def _hid_to_unix_path (path_len : Nat) : Option Unit :=
  let len := 4
  if sprintf_prec_newline_size len path_len > len then none
  else if path_len < 5 then none
  else if sprintf_prec_newline_size len (path_len - 5) > len then none
  else some ()

/-- How the `while (cur_dev)` loop of `open_device_idx` can be left early,
after a failed `hid_open_path`: by undefined behaviour in
`_hid_to_unix_path`, or by the `return NULL` of line 112. -/
inductive WalkExit where
  | undefined (st : HidState)
  | return_null (st : HidState)
deriving DecidableEq

/-- The `while (cur_dev)` loop of `open_device_idx` over the rest of the
enumeration, from loop state `idx`, `iface_cur`, `ret`. `Except.error` leaves
the loop early (lines 107-112): `_hid_to_unix_path(cur_dev->path)` runs first,
then `return NULL`. -/
def open_device_walk (env : HidEnv) (iface iface_tot device_index : Int) :
    List hid_device_info → Int → Int → Option Nat → HidState →
      Except WalkExit (Option Nat × HidState)
  | [], _, _, ret, st => .ok (ret, st)
  | cur_dev :: rest, idx, iface_cur, ret, st =>
    if idx = device_index ∧ iface = iface_cur then
      match hid_open_path env st cur_dev.path with
      | (none, st1) =>
        match _hid_to_unix_path cur_dev.path_len with
        | none => .error (.undefined st1)
        | some _ => .error (.return_null st1)
      | (some h, st1) =>
        if iface_cur + 1 ≥ iface_tot then
          open_device_walk env iface iface_tot device_index rest (idx + 1) 0 (some h) st1
        else
          open_device_walk env iface iface_tot device_index rest idx (iface_cur + 1) (some h) st1
    else
      if iface_cur + 1 ≥ iface_tot then
        open_device_walk env iface iface_tot device_index rest (idx + 1) 0 ret st
      else
        open_device_walk env iface iface_tot device_index rest idx (iface_cur + 1) ret st

/-- Embedding of `open_device_idx`. -/
def open_device_idx (env : HidEnv) (st : HidState)
    (manufacturer product : Nat) (iface iface_tot device_index : Int) :
    Outcome (Option Nat × HidState) :=
  let devs := env.hid_enumerate manufacturer product
  match open_device_walk env iface iface_tot device_index devs 0 0 none st with
  | .error (.undefined st1) => .undefined st1
  | .error (.return_null st1) => .returns (none, st1)
  | .ok (ret, st1) =>
    if env.hid_set_nonblocking ret = -1 then .returns (none, st1)
    else .returns (ret, st1)

/-- The USB identifiers used by `vl_driver_open_device`; their values are
defined in `vl_driver.h`. -/
structure UsbIds where
  HTC_ID : Nat
  VIVE_HMD : Nat
  VALVE_ID : Nat
  VIVE_LIGHTHOUSE_FPGA_RX : Nat
  VIVE_WATCHMAN_DONGLE : Nat

/-- Embedding of `vl_driver_open_device`. `alloc` is the structure produced by
`new vl_driver`; `cleanup:` frees that structure and returns `NULL`. -/
def vl_driver_open_device {F : Type} (ids : UsbIds) (env : HidEnv)
    (vl_fusion_init : F → F) (alloc : vl_driver F) (st : HidState) (idx : Int) :
    Outcome (Option (vl_driver F) × HidState) :=
  let drv := alloc
  match open_device_idx env st ids.HTC_ID ids.VIVE_HMD 0 1 idx with
  | .undefined s => .undefined s
  | .returns (none, st1) => .returns (none, st1)
  | .returns (some hmd, st1) =>
    let drv := { drv with hmd_device := some hmd }
    match open_device_idx env st1 ids.VALVE_ID ids.VIVE_LIGHTHOUSE_FPGA_RX 0 2 idx with
    | .undefined s => .undefined s
    | .returns (none, st2) => .returns (none, st2)
    | .returns (some imu, st2) =>
      let drv := { drv with hmd_imu_device := some imu }
      match open_device_idx env st2 ids.VALVE_ID ids.VIVE_LIGHTHOUSE_FPGA_RX 1 2 idx with
      | .undefined s => .undefined s
      | .returns (none, st3) => .returns (none, st3)
      | .returns (some light, st3) =>
        let drv := { drv with hmd_light_sensor_device := some light }
        match open_device_idx env st3 ids.VALVE_ID ids.VIVE_WATCHMAN_DONGLE 1 2 idx with
        | .undefined s => .undefined s
        | .returns (none, st4) => .returns (none, st4)
        | .returns (some dongle, st4) =>
          let drv := { drv with watchman_dongle_device := some dongle }
          .returns (some { drv with sensor_fusion := vl_fusion_init drv.sensor_fusion }, st4)

/-- Embedding of `vl_driver_close`: closes the four endpoint handles. -/
def vl_driver_close {F : Type} (st : HidState) (drv : vl_driver F) : HidState :=
  let st := hid_close st drv.hmd_device
  let st := hid_close st drv.hmd_imu_device
  let st := hid_close st drv.watchman_dongle_device
  hid_close st drv.hmd_light_sensor_device

/-- The samples of a report in the order in which the `for` loop reads them. -/
def visited_samples (pkt : vl_msg_hmd_imu) : List vl_imu_sample :=
  let li := get_lowest_index pkt.samples0.seq pkt.samples1.seq pkt.samples2.seq
  (List.range 3).map (fun offset => pkt.samples ((li + offset) % 3))

/-- The sequence number of the sample at the index returned by
`get_lowest_index`. -/
def selected_seq (s0 s1 s2 : Nat) : Nat :=
  match get_lowest_index s0 s1 s2 with
  | 0 => s0
  | 1 => s1
  | _ => s2

/-- The comparison made by `get_lowest_index` on a pair of slots. -/
def stride2 (a b : Nat) : Prop := a = cast_u8 (b + 2)

instance (a b : Nat) : Decidable (stride2 a b) := by
  unfold stride2; infer_instance

/-- Exactly one of the three cyclically adjacent pairs of slots passes the
comparison of `get_lowest_index`. -/
def one_stride2_pair (s0 s1 s2 : Nat) : Prop :=
  (stride2 s0 s1 ∧ ¬ stride2 s1 s2 ∧ ¬ stride2 s2 s0) ∨
  (¬ stride2 s0 s1 ∧ stride2 s1 s2 ∧ ¬ stride2 s2 s0) ∨
  (¬ stride2 s0 s1 ∧ ¬ stride2 s1 s2 ∧ stride2 s2 s0)

instance (a b c : Nat) : Decidable (one_stride2_pair a b c) := by
  unfold one_stride2_pair; infer_instance

/-! ## Auxiliary definitions used in the statements -/

/-- A sample with the given sequence number and tick value, zero
acceleration and a non-zero angular rate about the third axis. -/
def sample_at (seq ticks : Nat) : vl_imu_sample :=
  { acc := ⟨0, 0, 0⟩, rot := ⟨0, 0, 100⟩, time_ticks := ticks, seq := seq }

/-- A report whose samples straddle the wrap of the tick counter: sequence
numbers 7, 8, 9 and ticks `2^32 - 2000`, `2^32 - 1000`, `0`. -/
def wrap_report : vl_msg_hmd_imu :=
  { samples0 := ⟨⟨0, 0, 0⟩, ⟨0, 0, 0⟩, 2 ^ 32 - 2000, 7⟩
    samples1 := ⟨⟨0, 0, 0⟩, ⟨0, 0, 0⟩, 2 ^ 32 - 1000, 8⟩
    samples2 := ⟨⟨0, 0, 0⟩, ⟨0, 0, 0⟩, 0, 9⟩ }

/-- Every sample of a read carries a tick value that fits `uint32_t`. -/
def imu_read.ticks_u32 : imu_read → Prop
  | .hmd_imu pkt =>
    pkt.samples0.time_ticks < 2 ^ 32 ∧ pkt.samples1.time_ticks < 2 ^ 32 ∧
      pkt.samples2.time_ticks < 2 ^ 32
  | .other _ => True

/-- Invariant of the tracking loop used for the bound on tick deltas. -/
def delta_invariant (base : List FusionCall) (drv : vl_driver (List FusionCall)) : Prop :=
  drv.previous_ticks < 2 ^ 32 ∧
  ∀ c ∈ drv.sensor_fusion, c ∈ base ∨ (1 ≤ c.ticks ∧ c.ticks ≤ 3 * 2 ^ 30)

/-- Concrete identifier values for the machines below. -/
def vive_ids : UsbIds :=
  { HTC_ID := 0x0bb4, VIVE_HMD := 0x2c87, VALVE_ID := 0x28de,
    VIVE_LIGHTHOUSE_FPGA_RX := 0x2000, VIVE_WATCHMAN_DONGLE := 0x2101 }

/-- The enumeration of a machine with one headset attached: the HMD
interface at path 10, the two lighthouse receiver interfaces at paths 20 and
21, the two dongle interfaces at paths 30 and 31; every path string has 12
characters. -/
def one_headset (v p : Nat) : List hid_device_info :=
  if v = 0x0bb4 ∧ p = 0x2c87 then [⟨v, p, 10, 12⟩]
  else if v = 0x28de ∧ p = 0x2000 then [⟨v, p, 20, 12⟩, ⟨v, p, 21, 12⟩]
  else if v = 0x28de ∧ p = 0x2101 then [⟨v, p, 30, 12⟩, ⟨v, p, 31, 12⟩]
  else []

/-- A machine with one headset on which `hid_open_path` fails on path 21,
the light sensor endpoint. -/
def env_light_sensor_fails : HidEnv :=
  { hid_enumerate := one_headset
    can_open := fun path => path != 21
    hid_set_nonblocking := fun _ => 0 }

/-- A machine with one headset on which every `hid_open_path` succeeds and
`hid_set_nonblocking` returns `-1` on the light sensor endpoint, path 21. -/
def env_nonblocking_fails : HidEnv :=
  { hid_enumerate := one_headset
    can_open := fun _ => true
    hid_set_nonblocking := fun dev => if dev = some 21 then -1 else 0 }

/-- The outcome of the walk when the requested interface is `p` entries
ahead in the enumeration. -/
def walk_outcome (env : HidEnv) (devs : List hid_device_info) (p : Nat)
    (ret : Option Nat) (st : HidState) : Except WalkExit (Option Nat × HidState) :=
  match devs[p]? with
  | none => .ok (ret, st)
  | some d =>
    if env.can_open d.path then
      .ok (some d.path, { open_attempts := st.open_attempts ++ [d.path],
                          open_handles := st.open_handles ++ [d.path] })
    else
      .error (.undefined { st with open_attempts := st.open_attempts ++ [d.path] })

/-! ## Theorems -/

theorem shift_threshold : UINT32_MAX >>> 2 = 2 ^ 30 - 1 := by decide

theorem is_timestamp_valid_iff (t1 t2 : Nat) (h1 : t1 < 2 ^ 32) (h2 : t2 < 2 ^ 32) :
    is_timestamp_valid t1 t2 = true ↔
      (t1 ≠ t2 ∧ ((t1 < t2 ∧ t2 - t1 > 2 ^ 30 - 1) ∨ (t1 > t2 ∧ t1 - t2 < 2 ^ 30 - 1))) := by
  unfold is_timestamp_valid sub_u32
  rw [shift_threshold]
  simp only [Bool.and_eq_true, Bool.or_eq_true, decide_eq_true_eq, bne_iff_ne, ne_eq]
  constructor
  · rintro ⟨hne, h | h⟩
    · refine ⟨hne, Or.inl ⟨h.1, ?_⟩⟩
      have := h.2
      omega
    · refine ⟨hne, Or.inr ⟨h.1, ?_⟩⟩
      have := h.2
      omega
  · rintro ⟨hne, h | h⟩
    · refine ⟨hne, Or.inl ⟨h.1, ?_⟩⟩
      have := h.2
      omega
    · refine ⟨hne, Or.inr ⟨h.1, ?_⟩⟩
      have := h.2
      omega

/-- Claim C1, as amended: for all unsigned 32-bit `t1`, `t2`,
`is_timestamp_valid t1 t2` is the specification's predicate with threshold
`T = 2^30 - 1` (the value of `UINT32_MAX >> 2`), and at that threshold
`(0, T+1)` is valid, `(0, T)` is not, `(T+1, 0)` is not and `(T-1, 0)` is. -/
theorem is_timestamp_valid_threshold (t1 t2 : Nat) (h1 : t1 < 2 ^ 32) (h2 : t2 < 2 ^ 32) :
    is_timestamp_valid t1 t2 = isValid_spec (2 ^ 30 - 1) t1 t2 ∧
    is_timestamp_valid 0 ((2 ^ 30 - 1) + 1) = true ∧
    is_timestamp_valid 0 (2 ^ 30 - 1) = false ∧
    is_timestamp_valid ((2 ^ 30 - 1) + 1) 0 = false ∧
    is_timestamp_valid ((2 ^ 30 - 1) - 1) 0 = true := by
  refine ⟨?_, by decide, by decide, by decide, by decide⟩
  rw [Bool.eq_iff_iff, is_timestamp_valid_iff t1 t2 h1 h2]
  unfold isValid_spec
  simp only [decide_eq_true_eq]

/-- Witness for claim C1: the amended statement at `t1 = 5`, `t2 = 7`. -/
theorem is_timestamp_valid_threshold_witness :
    5 < 2 ^ 32 ∧ 7 < 2 ^ 32 ∧
    (is_timestamp_valid 5 7 = isValid_spec (2 ^ 30 - 1) 5 7 ∧
     is_timestamp_valid 0 ((2 ^ 30 - 1) + 1) = true ∧
     is_timestamp_valid 0 (2 ^ 30 - 1) = false ∧
     is_timestamp_valid ((2 ^ 30 - 1) + 1) 0 = false ∧
     is_timestamp_valid ((2 ^ 30 - 1) - 1) 0 = true) :=
  ⟨by decide, by decide, is_timestamp_valid_threshold 5 7 (by decide) (by decide)⟩

/-- Counterexample for claim C1 as stated (threshold `T = 2^30`):
`is_timestamp_valid(0, T)` is true where the stated predicate is false, and
`is_timestamp_valid(T-1, 0)` is false where the stated predicate is true. -/
theorem is_timestamp_valid_two_pow_30_counterexample :
    is_timestamp_valid 0 (2 ^ 30) = true ∧ isValid_spec (2 ^ 30) 0 (2 ^ 30) = false ∧
    is_timestamp_valid (2 ^ 30 - 1) 0 = false ∧ isValid_spec (2 ^ 30) (2 ^ 30 - 1) 0 = true := by
  decide


/-! ## Sample sequencing -/

theorem update_pose_report_eq_feed {F : Type} (upd : FusionUpdate F) (drv : vl_driver F)
    (pkt : vl_msg_hmd_imu) :
    update_pose_report upd drv pkt = feed_samples upd drv (visited_samples pkt) := by
  unfold update_pose_report feed_samples visited_samples
  simp only [List.foldl_map]

/-- Counterexample for claim C6 as stated: for the stride-2 triple `(5,3,1)`
the selected sample has sequence number 3, for its rotation `(3,1,5)` it has
sequence number 1. -/
theorem selected_seq_stride2_counterexample :
    selected_seq 5 3 1 = 3 ∧ selected_seq 3 1 5 = 1 ∧
    selected_seq 5 3 1 ≠ selected_seq 3 1 5 := by
  decide

/-- Claim C6, as amended: when exactly one of the three cyclically adjacent
pairs of slots `(s_i, s_((i+1) mod 3))` satisfies `s_i = (s_(i+1) + 2) mod 256`,
the sequence number of the sample selected by `get_lowest_index` is the same
for the triple and for each of its rotations. -/
theorem selected_seq_rotation_invariant (s0 s1 s2 : Nat) (h : one_stride2_pair s0 s1 s2) :
    selected_seq s1 s2 s0 = selected_seq s0 s1 s2 ∧
    selected_seq s2 s0 s1 = selected_seq s0 s1 s2 := by
  unfold one_stride2_pair stride2 at h
  rcases h with ⟨h1, h2, h3⟩ | ⟨h1, h2, h3⟩ | ⟨h1, h2, h3⟩
  · have g0 : get_lowest_index s0 s1 s2 = 1 := by
      unfold get_lowest_index; rw [if_pos h1]
    have g1 : get_lowest_index s1 s2 s0 = 0 := by
      unfold get_lowest_index; rw [if_neg h2, if_neg h3]
    have g2 : get_lowest_index s2 s0 s1 = 2 := by
      unfold get_lowest_index; rw [if_neg h3, if_pos h1]
    simp only [selected_seq, g0, g1, g2, and_self]
  · have g0 : get_lowest_index s0 s1 s2 = 2 := by
      unfold get_lowest_index; rw [if_neg h1, if_pos h2]
    have g1 : get_lowest_index s1 s2 s0 = 1 := by
      unfold get_lowest_index; rw [if_pos h2]
    have g2 : get_lowest_index s2 s0 s1 = 0 := by
      unfold get_lowest_index; rw [if_neg h3, if_neg h1]
    simp only [selected_seq, g0, g1, g2, and_self]
  · have g0 : get_lowest_index s0 s1 s2 = 0 := by
      unfold get_lowest_index; rw [if_neg h1, if_neg h2]
    have g1 : get_lowest_index s1 s2 s0 = 2 := by
      unfold get_lowest_index; rw [if_neg h2, if_pos h3]
    have g2 : get_lowest_index s2 s0 s1 = 1 := by
      unfold get_lowest_index; rw [if_pos h3]
    simp only [selected_seq, g0, g1, g2, and_self]

/-- Witness for claim C6: the triple `(3,1,2)` and its rotations `(1,2,3)`,
`(2,3,1)`. -/
theorem selected_seq_rotation_invariant_witness :
    one_stride2_pair 3 1 2 ∧
    selected_seq 1 2 3 = selected_seq 3 1 2 ∧
    selected_seq 2 3 1 = selected_seq 3 1 2 :=
  ⟨by decide, selected_seq_rotation_invariant 3 1 2 (by decide)⟩

/-- Claim C9: when the three slots of a report hold a rotation of the
consecutive run `n, n+1, n+2` (mod 256), that is `(n, n+1, n+2)`,
`(n+2, n, n+1)` or `(n+1, n+2, n)`, the loop reads the samples in ascending
order `n, n+1, n+2`, and handling the report is feeding those samples in that
order. -/
theorem visit_order_consecutive_run (n : Nat) (a b c : vl_imu_sample)
    (ha : a.seq = n % 256) (hb : b.seq = (n + 1) % 256) (hc : c.seq = (n + 2) % 256) :
    visited_samples ⟨a, b, c⟩ = [a, b, c] ∧
    visited_samples ⟨c, a, b⟩ = [a, b, c] ∧
    visited_samples ⟨b, c, a⟩ = [a, b, c] ∧
    (∀ (F : Type) (upd : FusionUpdate F) (drv : vl_driver F),
      update_pose_report upd drv ⟨a, b, c⟩ = feed_samples upd drv [a, b, c] ∧
      update_pose_report upd drv ⟨c, a, b⟩ = feed_samples upd drv [a, b, c] ∧
      update_pose_report upd drv ⟨b, c, a⟩ = feed_samples upd drv [a, b, c]) := by
  have e1 : get_lowest_index a.seq b.seq c.seq = 0 := by
    unfold get_lowest_index cast_u8
    rw [if_neg (by omega), if_neg (by omega)]
  have e2 : get_lowest_index c.seq a.seq b.seq = 1 := by
    unfold get_lowest_index cast_u8
    rw [if_pos (by omega)]
  have e3 : get_lowest_index b.seq c.seq a.seq = 2 := by
    unfold get_lowest_index cast_u8
    rw [if_neg (by omega), if_pos (by omega)]
  have v1 : visited_samples ⟨a, b, c⟩ = [a, b, c] := by
    simp [visited_samples, e1, List.range, List.range.loop, vl_msg_hmd_imu.samples]
  have v2 : visited_samples ⟨c, a, b⟩ = [a, b, c] := by
    simp [visited_samples, e2, List.range, List.range.loop, vl_msg_hmd_imu.samples]
  have v3 : visited_samples ⟨b, c, a⟩ = [a, b, c] := by
    simp [visited_samples, e3, List.range, List.range.loop, vl_msg_hmd_imu.samples]
  refine ⟨v1, v2, v3, ?_⟩
  intro F upd drv
  simp only [update_pose_report_eq_feed, v1, v2, v3, and_self]

/-- Witness for claim C9: the run `255, 0, 1` across the wrap. -/
theorem visit_order_consecutive_run_witness :
    (sample_at 255 10).seq = 255 % 256 ∧ (sample_at 0 20).seq = (255 + 1) % 256 ∧
    (sample_at 1 30).seq = (255 + 2) % 256 ∧
    visited_samples ⟨sample_at 1 30, sample_at 255 10, sample_at 0 20⟩
      = [sample_at 255 10, sample_at 0 20, sample_at 1 30] :=
  ⟨rfl, rfl, rfl,
   (visit_order_consecutive_run 255 (sample_at 255 10) (sample_at 0 20) (sample_at 1 30)
      rfl rfl rfl).2.1⟩

/-- Claim C8: in exact rational arithmetic `vec3_from_accel` scales every
component by `9.81 * 2^-13` and `vec3_from_gyro` by `2^-12`, so a raw count of
magnitude 32768 converts to magnitude `9.81 * 4` and `8` respectively. -/
theorem vec3_conversion_exact (smp : Raw3) :
    vec3_from_accel smp =
      ⟨(smp.e0 : ℚ) * (981 / 100) * (2 : ℚ) ^ (-13 : ℤ),
       (smp.e1 : ℚ) * (981 / 100) * (2 : ℚ) ^ (-13 : ℤ),
       (smp.e2 : ℚ) * (981 / 100) * (2 : ℚ) ^ (-13 : ℤ)⟩ ∧
    vec3_from_gyro smp =
      ⟨(smp.e0 : ℚ) * (2 : ℚ) ^ (-12 : ℤ), (smp.e1 : ℚ) * (2 : ℚ) ^ (-12 : ℤ),
       (smp.e2 : ℚ) * (2 : ℚ) ^ (-12 : ℤ)⟩ ∧
    (|smp.e0| = 32768 → |(vec3_from_accel smp).x| = 981 / 100 * 4 ∧ |(vec3_from_gyro smp).x| = 8) ∧
    (|smp.e1| = 32768 → |(vec3_from_accel smp).y| = 981 / 100 * 4 ∧ |(vec3_from_gyro smp).y| = 8) ∧
    (|smp.e2| = 32768 → |(vec3_from_accel smp).z| = 981 / 100 * 4 ∧ |(vec3_from_gyro smp).z| = 8) := by
  have key : ∀ r : Int, |r| = 32768 →
      |(r : ℚ) * (981 / 100) * 4 / 32768| = 981 / 100 * 4 ∧ |(r : ℚ) * 8 / 32768| = 8 := by
    intro r hr
    have hq : |(r : ℚ)| = 32768 := by
      have : ((|r| : Int) : ℚ) = 32768 := by rw [hr]; norm_num
      rwa [Int.cast_abs] at this
    constructor
    · rw [abs_div, abs_mul, abs_mul, hq, abs_of_pos (by norm_num : (0 : ℚ) < 981 / 100)]; norm_num
    · rw [abs_div, abs_mul, hq]; norm_num
  refine ⟨?_, ?_, ?_, ?_, ?_⟩
  · simp only [vec3_from_accel, Vec3.mul, Vec3.div, VL_GRAVITY_EARTH, Vec3.mk.injEq]
    refine ⟨?_, ?_, ?_⟩ <;> (rw [zpow_neg]; norm_num; ring)
  · simp only [vec3_from_gyro, Vec3.mul, Vec3.div, Vec3.mk.injEq]
    refine ⟨?_, ?_, ?_⟩ <;> (rw [zpow_neg]; norm_num; ring)
  · intro h; exact key _ h
  · intro h; exact key _ h
  · intro h; exact key _ h


/-- Witness for claim C8: the raw count `-32768` on every axis. -/
theorem vec3_conversion_exact_witness :
    |(-32768 : Int)| = 32768 ∧
    |(vec3_from_accel ⟨-32768, -32768, -32768⟩).x| = 981 / 100 * 4 ∧
    |(vec3_from_gyro ⟨-32768, -32768, -32768⟩).x| = 8 :=
  ⟨by decide, (vec3_conversion_exact ⟨-32768, -32768, -32768⟩).2.2.1 (by decide)⟩

/-! ## Tracking step -/

theorem sub_u32_eq_int_mod (a b : Nat) (hb : b < 2 ^ 32) :
    sub_u32 a b = (((a : Int) - (b : Int)) % 2 ^ 32).toNat := by
  unfold sub_u32
  omega

/-- Claim C2: on unsigned 32-bit tick values the loop body of
`vl_driver_update_pose` equals the reference transition, for every fusion
engine, state and sample; and feeding samples with ticks `1000`,
`1000 + 2^20`, `1000 + 2 * 2^20` from a state with `previous_ticks = 0` and no
recorded update records exactly two fusion updates. -/
theorem update_pose_sample_refines_reference :
    (∀ (F : Type) (upd : FusionUpdate F) (drv : vl_driver F) (sample : vl_imu_sample),
      drv.previous_ticks < 2 ^ 32 → sample.time_ticks < 2 ^ 32 →
      update_pose_sample upd drv sample = reference_transition upd drv sample) ∧
    (∀ (drv : vl_driver (List FusionCall)) (s1 s2 s3 : vl_imu_sample),
      drv.previous_ticks = 0 → drv.sensor_fusion = [] →
      s1.time_ticks = 1000 → s2.time_ticks = 1000 + 2 ^ 20 →
      s3.time_ticks = 1000 + 2 * 2 ^ 20 →
      (feed_samples record_update drv [s1, s2, s3]).sensor_fusion.length = 2) := by
  constructor
  · intro F upd drv sample hp _
    unfold update_pose_sample reference_transition vl_update_imu
    by_cases h0 : drv.previous_ticks = 0
    · simp [h0]
    · cases hv : is_timestamp_valid sample.time_ticks drv.previous_ticks
      · simp [h0, hv]
      · simp only [h0, hv, if_false, if_true, decide_False]
        rw [sub_u32_eq_int_mod _ _ hp]
  · intro drv s1 s2 s3 hp hf h1 h2 h3
    have v2 : is_timestamp_valid 1049576 1000 = true := by decide
    have v3 : is_timestamp_valid 2098152 1049576 = true := by decide
    simp [feed_samples, update_pose_sample, vl_update_imu, record_update, hp, hf, h1, h2, h3,
      v2, v3]


/-- Witness for claim C2: a seeded state and the three-sample scenario. -/
theorem update_pose_sample_refines_reference_witness :
    (1000 < 2 ^ 32 ∧ (sample_at 1 (1000 + 2 ^ 20)).time_ticks < 2 ^ 32 ∧
      update_pose_sample record_update { initial_driver with previous_ticks := 1000 }
          (sample_at 1 (1000 + 2 ^ 20))
        = reference_transition record_update { initial_driver with previous_ticks := 1000 }
          (sample_at 1 (1000 + 2 ^ 20))) ∧
    (initial_driver.previous_ticks = 0 ∧ initial_driver.sensor_fusion = [] ∧
      (feed_samples record_update initial_driver
        [sample_at 0 1000, sample_at 1 (1000 + 2 ^ 20),
          sample_at 2 (1000 + 2 * 2 ^ 20)]).sensor_fusion.length = 2) :=
  ⟨⟨by decide, by decide,
    update_pose_sample_refines_reference.1 _ record_update
      { initial_driver with previous_ticks := 1000 } (sample_at 1 (1000 + 2 ^ 20))
      (by decide) (by decide)⟩,
   ⟨rfl, rfl,
    update_pose_sample_refines_reference.2 initial_driver (sample_at 0 1000)
      (sample_at 1 (1000 + 2 ^ 20)) (sample_at 2 (1000 + 2 * 2 ^ 20)) rfl rfl rfl rfl rfl⟩⟩

/-- Claim C4, evaluation at the failing input: after the report `wrap_report`
is processed from the initial state, two fusion updates have been performed
and `previous_ticks` is `0`. -/
theorem previous_ticks_zero_after_update :
    (vl_driver_update_pose record_update initial_driver [imu_read.hmd_imu wrap_report]).previous_ticks
      = 0 ∧
    (vl_driver_update_pose record_update initial_driver
      [imu_read.hmd_imu wrap_report]).sensor_fusion.length = 2 := by
  decide

theorem valid_delta_bounds (t1 t2 : Nat) (h1 : t1 < 2 ^ 32) (h2 : t2 < 2 ^ 32)
    (hv : is_timestamp_valid t1 t2 = true) :
    1 ≤ sub_u32 t1 t2 ∧ sub_u32 t1 t2 ≤ 3 * 2 ^ 30 := by
  rw [is_timestamp_valid_iff t1 t2 h1 h2] at hv
  unfold sub_u32
  omega

theorem delta_invariant_sample (base : List FusionCall) (drv : vl_driver (List FusionCall))
    (sample : vl_imu_sample) (hs : sample.time_ticks < 2 ^ 32)
    (h : delta_invariant base drv) :
    delta_invariant base (update_pose_sample record_update drv sample) := by
  obtain ⟨hp, hc⟩ := h
  unfold update_pose_sample
  by_cases h0 : drv.previous_ticks = 0
  · rw [if_pos h0]
    exact ⟨hs, hc⟩
  · rw [if_neg h0]
    by_cases hv : is_timestamp_valid sample.time_ticks drv.previous_ticks = true
    · rw [if_pos hv]
      refine ⟨hs, ?_⟩
      intro c hmem
      simp only [vl_update_imu, record_update, List.mem_append, List.mem_singleton] at hmem
      rcases hmem with hmem | hmem
      · exact hc c hmem
      · right
        subst hmem
        exact valid_delta_bounds _ _ hs hp hv
    · rw [if_neg hv]
      exact ⟨hp, hc⟩

theorem delta_invariant_feed (base : List FusionCall) (samples : List vl_imu_sample) :
    ∀ drv : vl_driver (List FusionCall), (∀ s ∈ samples, s.time_ticks < 2 ^ 32) →
      delta_invariant base drv →
      delta_invariant base (feed_samples record_update drv samples) := by
  induction samples with
  | nil => intro drv _ h; exact h
  | cons s rest ih =>
    intro drv hs h
    have : feed_samples record_update drv (s :: rest)
        = feed_samples record_update (update_pose_sample record_update drv s) rest := rfl
    rw [this]
    exact ih _ (fun x hx => hs x (List.mem_cons_of_mem _ hx))
      (delta_invariant_sample base drv s (hs s (List.mem_cons_self _ _)) h)

theorem visited_samples_mem (pkt : vl_msg_hmd_imu) (s : vl_imu_sample)
    (h : s ∈ visited_samples pkt) :
    s = pkt.samples0 ∨ s = pkt.samples1 ∨ s = pkt.samples2 := by
  unfold visited_samples at h
  simp only [List.mem_map] at h
  obtain ⟨offset, _, rfl⟩ := h
  unfold vl_msg_hmd_imu.samples
  split
  · exact Or.inl rfl
  · exact Or.inr (Or.inl rfl)
  · exact Or.inr (Or.inr rfl)

theorem delta_invariant_reads (base : List FusionCall) (reads : List imu_read) :
    ∀ drv : vl_driver (List FusionCall), (∀ r ∈ reads, r.ticks_u32) →
      delta_invariant base drv →
      delta_invariant base (vl_driver_update_pose record_update drv reads) := by
  induction reads with
  | nil => intro drv _ h; exact h
  | cons r rest ih =>
    intro drv hr h
    have hr0 := hr r (List.mem_cons_self _ _)
    have hrest : ∀ x ∈ rest, x.ticks_u32 := fun x hx => hr x (List.mem_cons_of_mem _ hx)
    cases r with
    | other tag =>
      have hstep : vl_driver_update_pose record_update drv (imu_read.other tag :: rest)
          = vl_driver_update_pose record_update drv rest := rfl
      rw [hstep]
      exact ih drv hrest h
    | hmd_imu pkt =>
      have hstep : vl_driver_update_pose record_update drv (imu_read.hmd_imu pkt :: rest)
          = vl_driver_update_pose record_update
              (update_pose_report record_update drv pkt) rest := rfl
      rw [hstep]
      apply ih _ hrest
      rw [update_pose_report_eq_feed]
      apply delta_invariant_feed base _ drv _ h
      intro s hsmem
      obtain ⟨a, b, c⟩ := hr0
      rcases visited_samples_mem pkt s hsmem with e | e | e <;> rw [e] <;> assumption

/-- Claim C10: for unsigned 32-bit `t1`, `t2` with
`is_timestamp_valid t1 t2`, the wrapped delta `(t1 - t2) mod 2^32` lies in
`[1, 3 * 2^30]`; `is_timestamp_valid t t` is false; and every fusion update
recorded by `vl_driver_update_pose` carries a tick delta in that range. -/
theorem tick_delta_positive :
    (∀ t1 t2 : Nat, t1 < 2 ^ 32 → t2 < 2 ^ 32 → is_timestamp_valid t1 t2 = true →
      1 ≤ sub_u32 t1 t2 ∧ sub_u32 t1 t2 ≤ 3 * 2 ^ 30 ∧
      sub_u32 t1 t2 = (((t1 : Int) - (t2 : Int)) % 2 ^ 32).toNat) ∧
    (∀ t : Nat, is_timestamp_valid t t = false) ∧
    (∀ (drv : vl_driver (List FusionCall)) (reads : List imu_read),
      drv.previous_ticks < 2 ^ 32 → (∀ r ∈ reads, r.ticks_u32) →
      ∀ c ∈ (vl_driver_update_pose record_update drv reads).sensor_fusion,
        c ∈ drv.sensor_fusion ∨ (1 ≤ c.ticks ∧ c.ticks ≤ 3 * 2 ^ 30)) := by
  refine ⟨?_, ?_, ?_⟩
  · intro t1 t2 h1 h2 hv
    have hb := valid_delta_bounds t1 t2 h1 h2 hv
    exact ⟨hb.1, hb.2, sub_u32_eq_int_mod t1 t2 h2⟩
  · intro t
    simp [is_timestamp_valid]
  · intro drv reads hp hr
    exact (delta_invariant_reads drv.sensor_fusion reads drv hr
      ⟨hp, fun c hc => Or.inl hc⟩).2


/-- Witness for claim C10: the pair `(2^30 - 2, 0)`, and the report
`wrap_report` processed from the initial state. -/
theorem tick_delta_positive_witness :
    (2 ^ 30 - 2 < 2 ^ 32 ∧ 0 < 2 ^ 32 ∧ is_timestamp_valid (2 ^ 30 - 2) 0 = true ∧
      1 ≤ sub_u32 (2 ^ 30 - 2) 0 ∧ sub_u32 (2 ^ 30 - 2) 0 ≤ 3 * 2 ^ 30) ∧
    (initial_driver.previous_ticks < 2 ^ 32 ∧
      ∀ c ∈ (vl_driver_update_pose record_update initial_driver
          [imu_read.hmd_imu wrap_report]).sensor_fusion,
        c ∈ initial_driver.sensor_fusion ∨ (1 ≤ c.ticks ∧ c.ticks ≤ 3 * 2 ^ 30)) :=
  ⟨⟨by decide, by decide, by decide,
    (tick_delta_positive.1 (2 ^ 30 - 2) 0 (by decide) (by decide) (by decide)).1,
    (tick_delta_positive.1 (2 ^ 30 - 2) 0 (by decide) (by decide) (by decide)).2.1⟩,
   ⟨by decide,
    tick_delta_positive.2.2 initial_driver [imu_read.hmd_imu wrap_report] (by decide)
      (by
        intro r hr
        rw [List.mem_singleton] at hr
        subst hr
        exact ⟨by decide, by decide, by decide⟩)⟩⟩

theorem hid_to_unix_path_undefined (path_len : Nat) : _hid_to_unix_path path_len = none := by
  unfold _hid_to_unix_path sprintf_prec_newline_size
  by_cases h : path_len < 5
  · by_cases h3 : min 4 path_len + 2 > 4
    · simp only [h3, if_true]
    · simp only [h3, if_false, h, if_true]
  · have h3 : min 4 path_len + 2 > 4 := by
      have : min 4 path_len = 4 := by omega
      omega
    simp only [h3, if_true]

theorem walk_match_iff (iface iface_tot device_index idx iface_cur : Int)
    (h2 : 0 ≤ iface) (h3 : iface < iface_tot) (c0 : 0 ≤ iface_cur) (c1 : iface_cur < iface_tot) :
    (idx = device_index ∧ iface = iface_cur) ↔
      (device_index - idx) * iface_tot + (iface - iface_cur) = 0 := by
  constructor
  · rintro ⟨rfl, rfl⟩
    simp
  · intro h
    have hk : device_index - idx = 0 := by
      by_contra hne
      rcases lt_or_gt_of_ne hne with hlt | hgt
      · have : (device_index - idx) * iface_tot ≤ -1 * iface_tot := by
          apply mul_le_mul_of_nonneg_right <;> omega
        omega
      · have : 1 * iface_tot ≤ (device_index - idx) * iface_tot := by
          apply mul_le_mul_of_nonneg_right <;> omega
        omega
    rw [hk] at h
    constructor <;> omega

theorem walk_passed (env : HidEnv) (iface iface_tot device_index : Int)
    (h2 : 0 ≤ iface) (h3 : iface < iface_tot) (devs : List hid_device_info) :
    ∀ (idx iface_cur : Int) (ret : Option Nat) (st : HidState),
      0 ≤ iface_cur → iface_cur < iface_tot →
      (device_index - idx) * iface_tot + (iface - iface_cur) < 0 →
      open_device_walk env iface iface_tot device_index devs idx iface_cur ret st
        = .ok (ret, st) := by
  induction devs with
  | nil => intro idx iface_cur ret st _ _ _; rfl
  | cons d rest ih =>
    intro idx iface_cur ret st c0 c1 hp
    have hno : ¬ (idx = device_index ∧ iface = iface_cur) := by
      rw [walk_match_iff iface iface_tot device_index idx iface_cur h2 h3 c0 c1]
      omega
    unfold open_device_walk
    rw [if_neg hno]
    by_cases hw : iface_cur + 1 ≥ iface_tot
    · rw [if_pos hw]
      apply ih (idx + 1) 0 ret st (by omega) (by omega)
      have e : (device_index - (idx + 1)) * iface_tot
          = (device_index - idx) * iface_tot - iface_tot := by ring
      rw [e]; omega
    · rw [if_neg hw]
      apply ih idx (iface_cur + 1) ret st (by omega) (by omega)
      omega

theorem walk_target (env : HidEnv) (iface iface_tot device_index : Int)
    (h2 : 0 ≤ iface) (h3 : iface < iface_tot) (devs : List hid_device_info) :
    ∀ (p : Nat) (idx iface_cur : Int) (ret : Option Nat) (st : HidState),
      0 ≤ iface_cur → iface_cur < iface_tot →
      (device_index - idx) * iface_tot + (iface - iface_cur) = (p : Int) →
      open_device_walk env iface iface_tot device_index devs idx iface_cur ret st
        = walk_outcome env devs p ret st := by
  induction devs with
  | nil => intro p idx iface_cur ret st _ _ _; rfl
  | cons d rest ih =>
    intro p idx iface_cur ret st c0 c1 hp
    have hiff := walk_match_iff iface iface_tot device_index idx iface_cur h2 h3 c0 c1
    have e : (device_index - (idx + 1)) * iface_tot
        = (device_index - idx) * iface_tot - iface_tot := by ring
    cases p with
    | zero =>
      have hyes : idx = device_index ∧ iface = iface_cur := by
        rw [hiff, hp]; rfl
      unfold open_device_walk walk_outcome hid_open_path
      rw [if_pos hyes]
      simp only [List.getElem?_cons_zero]
      by_cases hc : env.can_open d.path = true
      · simp only [hc, if_true]
        by_cases hw : iface_cur + 1 ≥ iface_tot
        · rw [if_pos hw]
          apply walk_passed env iface iface_tot device_index h2 h3 rest (idx + 1) 0 _ _
            (by omega) (by omega)
          rw [e]
          push_cast at hp
          omega
        · rw [if_neg hw]
          apply walk_passed env iface iface_tot device_index h2 h3 rest idx (iface_cur + 1) _ _
            (by omega) (by omega)
          push_cast at hp
          omega
      · simp only [hc, hid_to_unix_path_undefined]
        rfl
    | succ k =>
      have hno : ¬ (idx = device_index ∧ iface = iface_cur) := by
        rw [hiff, hp]; push_cast; omega
      unfold open_device_walk
      rw [if_neg hno]
      have hk : walk_outcome env (d :: rest) (k + 1) ret st = walk_outcome env rest k ret st := by
        unfold walk_outcome
        simp only [List.getElem?_cons_succ]
      rw [hk]
      push_cast at hp
      by_cases hw : iface_cur + 1 ≥ iface_tot
      · rw [if_pos hw]
        apply ih k (idx + 1) 0 ret st (by omega) (by omega)
        rw [e]; omega
      · rw [if_neg hw]
        apply ih k idx (iface_cur + 1) ret st (by omega) (by omega)
        omega

/-- For `iface_tot >= 1`, `0 <= iface < iface_tot` and `device_index >= 0` the
loop of `open_device_idx` passes to `hid_open_path` exactly the entry at
position `device_index * iface_tot + iface` of the enumeration when that
position exists, and nothing otherwise; when that open fails, the execution
reaches undefined behaviour in `_hid_to_unix_path`. -/
theorem open_device_walk_position (env : HidEnv) (st : HidState)
    (manufacturer product : Nat) (iface iface_tot device_index : Int)
    (h1 : 1 ≤ iface_tot) (h2 : 0 ≤ iface) (h3 : iface < iface_tot) (h4 : 0 ≤ device_index) :
    open_device_walk env iface iface_tot device_index
        (env.hid_enumerate manufacturer product) 0 0 none st
      = walk_outcome env (env.hid_enumerate manufacturer product)
          (device_index * iface_tot + iface).toNat none st := by
  have hpos : 0 ≤ device_index * iface_tot + iface := by
    have : 0 ≤ device_index * iface_tot := mul_nonneg h4 (by omega)
    omega
  exact walk_target env iface iface_tot device_index h2 h3
    (env.hid_enumerate manufacturer product) (device_index * iface_tot + iface).toNat 0 0 none st
    (le_refl 0) (by omega) (by rw [Int.toNat_of_nonneg hpos]; ring)

/-- Claim C7, evaluation at the failing input: `_hid_to_unix_path` has
undefined behaviour on a path string of every length, and
`open_device_idx(VALVE_ID, VIVE_LIGHTHOUSE_FPGA_RX, 1, 2, 0)` on a machine
where `hid_open_path` fails on the requested interface (path 21) attempts
that one open and then reaches undefined behaviour instead of returning
`NULL`. -/
theorem open_device_idx_failed_open_undefined :
    (∀ path_len : Nat, _hid_to_unix_path path_len = none) ∧
    open_device_idx env_light_sensor_fails ⟨[], []⟩ 0x28de 0x2000 1 2 0
      = Outcome.undefined ⟨[21], []⟩ := by
  refine ⟨hid_to_unix_path_undefined, ?_⟩
  decide

/-- Claim C5, evaluation at the failing inputs. When the third endpoint
fails because `hid_set_nonblocking` returns `-1`, `vl_driver_open_device`
returns `NULL` and the handles opened in the call (HMD 10, IMU 20 and the
light sensor 21) are still open. When `hid_open_path` fails on the third
endpoint, the execution reaches undefined behaviour with the HMD and IMU
handles still open. -/
theorem open_device_leaves_handles_open :
    vl_driver_open_device vive_ids env_nonblocking_fails id initial_driver ⟨[], []⟩ 0
      = Outcome.returns (none, ⟨[10, 20, 21], [10, 20, 21]⟩) ∧
    vl_driver_open_device vive_ids env_light_sensor_fails id initial_driver ⟨[], []⟩ 0
      = Outcome.undefined ⟨[10, 20, 21], [10, 20]⟩ := by
  constructor <;> rfl

end ViveLibre
